import Mathlib

/-!
Verification of the annotation-to-DICOM-SR mapping layer of the dwv toolkit
(`src/image/annotationFactory.js`).  The factory itself is translated from the
source; its external collaborators (concept-code registry, SR content model and
reader/writer, shape codec, element builder, the Annotation data model) are not
part of the provided sources and are modelled from the specification, as noted
on each definition.
-/

set_option linter.unusedVariables false

namespace Dwv

/-- Modelled from the spec: a coded concept ("a coded-value pair" naming the
semantic role of an SR node) from the concept-code registry `dicomCode.js`,
which is not among the provided sources.  `checkElements` in
`annotationFactory.js` reads its `value` field. -/
structure DicomCode where
  meaning : String
  value : String
deriving DecidableEq

/-- Modelled from the spec: the fixed "measurement group" concept code. -/
def getMeasurementGroupCode : DicomCode := { meaning := "Measurement Group", value := "125007" }

/-- Modelled from the spec: the fixed "image region" concept code. -/
def getImageRegionCode : DicomCode := { meaning := "Image Region", value := "111030" }

/-- Modelled from the spec: the fixed "source image" concept code. -/
def getSourceImageCode : DicomCode := { meaning := "Source image", value := "121112" }

/-- Modelled from the spec: the fixed "tracking identifier" concept code. -/
def getTrackingIdentifierCode : DicomCode := { meaning := "Tracking Identifier", value := "112039" }

/-- Modelled from the spec: the fixed "short label" concept code. -/
def getShortLabelCode : DicomCode := { meaning := "Short label", value := "128773" }

/-- Modelled from the spec: SR content value types (`ValueTypes` of
`dicomSRContent.js`, not among the provided sources). -/
inductive ValueType where
  | container
  | scoord
  | image
  | uidref
  | text
  | num
  | code
deriving DecidableEq

/-- Modelled from the spec: SR relationship types (`RelationshipTypes` of
`dicomSRContent.js`, not among the provided sources). -/
inductive RelationshipType where
  | contains
  | hasProperties
  | selectedFrom
  | inferredFrom
deriving DecidableEq

/-- Modelled from the spec: the geometric shapes handled by the external shape
codec (point, polyline, rectangle, ellipse at minimum). -/
inductive MathShape where
  | point (x y : Int)
  | polyline (coords : List Int)
  | rectangle (x y w h : Int)
  | ellipse (cx cy rx ry : Int)
deriving DecidableEq

/-- Modelled from the spec: an encoded DICOM spatial coordinate; the shape
codec `getScoordFromShape`/`getShapeFromScoord` is bidirectional and the two
directions are inverse of each other for all supported shapes. -/
structure ScoordValue where
  shape : MathShape
deriving DecidableEq

/-- Modelled from the spec: reference to one SOP instance
(`dicomSopInstanceReference.js`, not among the provided sources). -/
structure SopInstanceReference where
  referencedSOPClassUID : Option String
  referencedSOPInstanceUID : Option String
deriving DecidableEq

/-- Modelled from the spec: image reference wrapping a SOP instance reference
(`dicomImageReference.js`, not among the provided sources). -/
structure ImageReference where
  referencedSOPSequence : SopInstanceReference
deriving DecidableEq

/-- Modelled from the spec: the type-dependent payload of an SR content node
(spatial coordinate, image reference, plain string, or absent). -/
inductive SRValue where
  | scoordVal (v : ScoordValue)
  | imageVal (r : ImageReference)
  | strVal (s : String)
  | emptyVal
deriving DecidableEq

/-- Modelled from the spec: a DICOM SR content-tree node with `valueType`,
`relationshipType`, `conceptNameCode`, a type-dependent `value` and an ordered
`contentSequence` of child nodes. -/
inductive DicomSRContent where
  | mk (valueType : ValueType) (relationshipType : Option RelationshipType)
      (conceptNameCode : Option DicomCode) (value : SRValue)
      (contentSequence : List DicomSRContent)

def DicomSRContent.valueType : DicomSRContent → ValueType
  | .mk v _ _ _ _ => v

def DicomSRContent.relationshipType : DicomSRContent → Option RelationshipType
  | .mk _ r _ _ _ => r

def DicomSRContent.conceptNameCode : DicomSRContent → Option DicomCode
  | .mk _ _ c _ _ => c

def DicomSRContent.value : DicomSRContent → SRValue
  | .mk _ _ _ v _ => v

def DicomSRContent.contentSequence : DicomSRContent → List DicomSRContent
  | .mk _ _ _ _ s => s

/-- Modelled from the spec: one possible value inside a DICOM data element's
value array: a string, a coded concept, the child nodes of a serialized SR
content sequence, or a sequence item mapping tag keys to nested element value
arrays. -/
inductive ElemValue where
  | str (s : String)
  | codeVal (c : DicomCode)
  | srNodes (ns : List DicomSRContent)
  | item (fields : List (String × List ElemValue))

/-- Modelled from the spec: a parsed DICOM file, a mapping from tag key to data
element; each element is identified with its `value` array. -/
abbrev Elements := List (String × List ElemValue)

/-- Modelled from the spec: the Annotation data model (`annotation.js`, not
among the provided sources): id, geometric shape, reference to the image the
region is drawn on, and a free-text label. -/
structure Annot where
  id : SRValue
  mathShape : MathShape
  referenceSopUID : Option String
  textExpr : SRValue
deriving DecidableEq

/-- Modelled from the spec: the group-level metadata side-table touched by the
factory: `Modality`, `StudyInstanceUID` and the optional
`ReferencedSeriesSequence` (stored as the series-instance-UID value of its one
sequence item, itself possibly undefined). -/
structure GroupMeta where
  modality : Option ElemValue
  studyInstanceUID : Option ElemValue
  referencedSeriesSequence : Option (Option ElemValue)

/-- Modelled from the spec: an ordered collection of Annotations plus their
group-level metadata (`annotation.js`, not among the provided sources). -/
structure AnnotGroup where
  list : List Annot
  meta : GroupMeta

/-- Modelled from the spec: a flat JSON tag mapping (tag name to value), the
intermediate representation `toDicom` builds; an entry holding `none` is a key
whose value is the JavaScript `undefined`. -/
inductive TagValue where
  | elemVal (v : ElemValue)
  | srTree (ns : List DicomSRContent)
  | refSeries (u : Option ElemValue)

abbrev Tags := List (String × Option TagValue)

/-- JavaScript read `tags[k]`: `undefined` both when the key is absent and when
it is present with an undefined value. -/
def jsRead (t : Tags) (k : String) : Option TagValue :=
  match t.lookup k with
  | some (some v) => some v
  | _ => none

/-- JavaScript assignment `tags[k] = v`: replaces the value in place when the
key exists (keeping insertion order), appends the key otherwise. -/
def setTag (t : Tags) (k : String) (v : Option TagValue) : Tags :=
  if (t.lookup k).isSome then
    t.map (fun kv => if kv.1 = k then (k, v) else kv)
  else
    t ++ [(k, v)]

/-- Loop body of `mergeTags` (lines 46-51): before assigning, a key whose
current value is defined is logged with a trace notice naming it. -/
def mergeStep (acc : Tags × List String) (kv : String × Option TagValue) :
    Tags × List String :=
  (setTag acc.1 kv.1 kv.2,
   if (jsRead acc.1 kv.1).isSome then
     acc.2 ++ [("Overwritting tag: ") ++ kv.1]
   else
     acc.2)

/-- `mergeTags` from `annotationFactory.js` (lines 44-52): merge `tags2` into
`tags1`, iterating over the keys of `tags2`.  The returned list collects the
trace log entries. -/
def mergeTags (tags1 : Tags) (tags2 : Tags) : Tags × List String :=
  tags2.foldl mergeStep (tags1, [])

/-- JavaScript object spread `{...t, ...s}`: silent overwrite, no logging. -/
def spreadTags (t : Tags) (s : Tags) : Tags :=
  s.foldl (fun acc kv => setTag acc kv.1 kv.2) t

/-- Modelled from the spec: printed name of an SR value type. -/
def valueTypeName : ValueType → String
  | .container => "CONTAINER"
  | .scoord => "SCOORD"
  | .image => "IMAGE"
  | .uidref => "UIDREF"
  | .text => "TEXT"
  | .num => "NUM"
  | .code => "CODE"

/-- Modelled from the spec: parse of an SR value type name, container default. -/
def parseValueType (s : String) : ValueType :=
  if s = "SCOORD" then .scoord
  else if s = "IMAGE" then .image
  else if s = "UIDREF" then .uidref
  else if s = "TEXT" then .text
  else if s = "NUM" then .num
  else if s = "CODE" then .code
  else .container

/-- Modelled from the spec: the SR content reader `getSRContent`
(`dicomSRContent.js`, not among the provided sources): "elements mapping →
root SR content node (must detect and expose the root conceptNameCode)".
The root's value type, concept-name code and content sequence are read from
the SR document tags. -/
def getSRContent (els : Elements) : DicomSRContent :=
  .mk
    (match els.lookup ("0040A040") with
     | some ((ElemValue.str s) :: _) => parseValueType s
     | _ => .container)
    none
    (match els.lookup ("0040A043") with
     | some ((ElemValue.codeVal c) :: _) => some c
     | _ => none)
    .emptyVal
    (match els.lookup ("0040A730") with
     | some ((ElemValue.srNodes ns) :: _) => ns
     | _ => [])

/-- Modelled from the spec: the SR content writer `getDicomSRContentItem`
(`dicomSRContent.js`, not among the provided sources): "SR content node tree →
flat tag mapping".  The content-tree tags are the root's value type, its
concept-name code sequence and its content sequence. -/
def getDicomSRContentItem (c : DicomSRContent) : Tags :=
  [("ValueType", some (TagValue.elemVal (ElemValue.str (valueTypeName c.valueType))))]
  ++ (match c.conceptNameCode with
      | some cc => [("ConceptNameCodeSequence", some (TagValue.elemVal (ElemValue.codeVal cc)))]
      | none => [])
  ++ [("ContentSequence", some (TagValue.srTree c.contentSequence))]

/-- Modelled from the spec: mapping from DICOM tag name to tag number key, as
performed by the external element builder; names without a known number are
kept as keys unchanged. -/
def dicomTagNum (name : String) : String :=
  if name = "TransferSyntaxUID" then "00020010"
  else if name = "MediaStorageSOPClassUID" then "00020002"
  else if name = "MediaStorageSOPInstanceUID" then "00020003"
  else if name = "SOPClassUID" then "00080016"
  else if name = "SOPInstanceUID" then "00080018"
  else if name = "Modality" then "00080060"
  else if name = "ContentDate" then "00080023"
  else if name = "ContentTime" then "00080033"
  else if name = "StudyInstanceUID" then "0020000D"
  else if name = "SeriesInstanceUID" then "0020000E"
  else if name = "ReferencedSeriesSequence" then "00081115"
  else if name = "CompletionFlag" then "0040A491"
  else if name = "VerificationFlag" then "0040A493"
  else if name = "ValueType" then "0040A040"
  else if name = "ConceptNameCodeSequence" then "0040A043"
  else if name = "ContentSequence" then "0040A730"
  else name

/-- Modelled from the spec: encoding of one JSON tag value as a data element
value array; a `ReferencedSeriesSequence` JSON object becomes one sequence item
holding the series-instance-UID sub-element. -/
def encodeTagValue : TagValue → List ElemValue
  | .elemVal v => [v]
  | .srTree ns => [ElemValue.srNodes ns]
  | .refSeries u =>
    [ElemValue.item [("0020000E", match u with | some v => [v] | none => [])]]

/-- Modelled from the spec: the external element builder
`getElementsFromJSONTags` (`dicomWriter.js`, not among the provided sources):
"flat tag mapping → DICOM data element mapping"; keys whose value is undefined
produce no element. -/
def getElementsFromJSONTags (tags : Tags) : Elements :=
  tags.filterMap (fun kv => kv.2.map (fun v => (dicomTagNum kv.1, encodeTagValue v)))

/-- Modelled from the spec: the date/time codec (`dicomDate.js`, not among the
provided sources); the wall-clock instant is a number. -/
def dateToDateObj (now : Nat) : Nat := now

/-- Modelled from the spec: wall-clock instant to time object. -/
def dateToTimeObj (now : Nat) : Nat := now

/-- Modelled from the spec: DICOM date string of a date object. -/
def getDicomDate (d : Nat) : String := ("D") ++ toString d

/-- Modelled from the spec: DICOM time string of a time object. -/
def getDicomTime (t : Nat) : String := ("T") ++ toString t

/-- `getShapeFromScoord` applied to an SR node value (shape codec modelled
from the spec as the inverse of `getScoordFromShape`). -/
def getShapeFromScoord : SRValue → MathShape
  | .scoordVal v => v.shape
  | _ => .point 0 0

/-- Modelled from the spec: `getScoordFromShape`, the encoding direction of the
shape codec. -/
def getScoordFromShape (s : MathShape) : ScoordValue := { shape := s }

/-- `checkElements` from `annotationFactory.js` (lines 82-96), with the
instance field holding the warning made explicit: takes the previously stored
warning, returns the computed warning together with the new stored value (the
method first resets the stored warning, then compares the root concept-name
code's value with the fixed measurement-group code's value). -/
def checkElements (warning : Option String) (dataElements : Elements) :
    Option String × Option String :=
  let srContent := getSRContent dataElements
  let w : Option String :=
    match srContent.conceptNameCode with
    | some c =>
      if c.value ≠ getMeasurementGroupCode.value then some ("Not a measurement group")
      else none
    | none => some ("No root concept name code")
  (w, w)

/-- JavaScript access `subItem.value.referencedSOPSequence.referencedSOPInstanceUID`
(create, lines 120-121): on an image reference it reads the field; on any other
value the first property access yields `undefined` and the second one throws. -/
def refSopAccess : SRValue → Except String (Option String)
  | .imageVal r => .ok r.referencedSOPSequence.referencedSOPInstanceUID
  | _ => .error ("TypeError")

/-- Body of the inner loop of `create` (lines 117-131): one direct child of a
scoord node may overwrite the reference SOP UID, the id, or the text
expression of the annotation being built. -/
def processSubItem (annot : Annot) (subItem : DicomSRContent) : Except String Annot := do
  let a1 ←
    if subItem.valueType = ValueType.image ∧
        subItem.relationshipType = some RelationshipType.selectedFrom then
      match refSopAccess subItem.value with
      | .ok u => Except.ok { annot with referenceSopUID := u }
      | .error e => Except.error e
    else
      Except.ok annot
  let a2 :=
    if subItem.valueType = ValueType.uidref ∧
        subItem.relationshipType = some RelationshipType.hasProperties then
      { a1 with id := subItem.value }
    else a1
  let a3 :=
    if subItem.valueType = ValueType.text ∧
        subItem.relationshipType = some RelationshipType.hasProperties then
      { a2 with textExpr := subItem.value }
    else a2
  Except.ok a3

/-- Body of the outer loop of `create` for one scoord child (lines 111-133):
decode the shape, default the id to a fresh generated identifier and the text
expression to the empty string, then fold the direct children. -/
def buildAnnot (gid : String) (item : DicomSRContent) : Except String Annot :=
  item.contentSequence.foldlM processSubItem
    { id := SRValue.strVal gid
      mathShape := getShapeFromScoord item.value
      referenceSopUID := none
      textExpr := SRValue.strVal ("") }

/-- Outer loop of `create` (lines 109-135): one annotation per direct child of
the root whose value type is scoord, in order; `guids` is the external fresh
identifier generator, consumed once per scoord child. -/
def createAnnots (items : List DicomSRContent) (guids : Nat → String) (k : Nat) :
    Except String (List Annot) :=
  match items with
  | [] => .ok []
  | item :: rest =>
    if item.valueType = ValueType.scoord then do
      let a ← buildAnnot (guids k) item
      let rest' ← createAnnots rest guids (k + 1)
      Except.ok (a :: rest')
    else
      createAnnots rest guids k

/-- JavaScript access `dataElements[tag].value[0]`: throws when the element is
absent, otherwise yields the possibly-undefined first value. -/
def elemFirst (els : Elements) (tag : String) : Except String (Option ElemValue) :=
  match els.lookup tag with
  | some vs => .ok vs.head?
  | none => .error ("TypeError")

/-- The `ReferencedSeriesSequence` block of `create` (lines 143-156): when
element 00081115 is present, access its first value's sub-element 0020000E
(throwing when there is no first value); when that sub-element is present, the
metadata is set to its first value. -/
def readRefSeries (els : Elements) : Except String (Option (Option ElemValue)) :=
  match els.lookup ("00081115") with
  | none => .ok none
  | some vs =>
    match vs.head? with
    | none => .error ("TypeError")
    | some (ElemValue.item fields) =>
      match fields.lookup ("0020000E") with
      | none => .ok none
      | some sv => .ok (some sv.head?)
    | some _ => .ok none

/-- `create` from `annotationFactory.js` (lines 104-163): read the SR content
tree, build one annotation per scoord child of the root, then populate the
group metadata (`Modality` required, `ReferencedSeriesSequence` optional,
`StudyInstanceUID` required, in that evaluation order). -/
def create (dataElements : Elements) (guids : Nat → String) :
    Except String AnnotGroup := do
  let annots ← createAnnots (getSRContent dataElements).contentSequence guids 0
  let modality ← elemFirst dataElements ("00080060")
  let refSeries ← readRefSeries dataElements
  let study ← elemFirst dataElements ("0020000D")
  Except.ok
    { list := annots
      meta :=
        { modality := modality
          studyInstanceUID := study
          referencedSeriesSequence := refSeries } }

/-- Per-annotation SR node construction of `toDicom` (lines 198-225): a scoord
node with relationship `contains` and the image-region code, whose children
are, in order, the image/selectedFrom node carrying the reference SOP UID, the
uidref/hasProperties node carrying the id, and the text/hasProperties node
carrying the text expression. -/
def mkSRScoord (annot : Annot) : DicomSRContent :=
  .mk .scoord (some .contains) (some getImageRegionCode)
    (SRValue.scoordVal (getScoordFromShape annot.mathShape))
    [.mk .image (some .selectedFrom) (some getSourceImageCode)
       (SRValue.imageVal
         { referencedSOPSequence :=
           { referencedSOPClassUID := some ("")
             referencedSOPInstanceUID := annot.referenceSopUID } })
       [],
     .mk .uidref (some .hasProperties) (some getTrackingIdentifierCode) annot.id [],
     .mk .text (some .hasProperties) (some getShortLabelCode) annot.textExpr []]

/-- The fixed and metadata tags of `toDicom` (lines 173-194), in source
assignment order. -/
def baseTags (g : AnnotGroup) (now : Nat) : Tags :=
  [("TransferSyntaxUID", some (TagValue.elemVal (ElemValue.str ("1.2.840.10008.1.2.1")))),
   ("SOPClassUID", some (TagValue.elemVal (ElemValue.str ("1.2.840.10008.5.1.4.1.1.88.11")))),
   ("SOPInstanceUID", some (TagValue.elemVal (ElemValue.str ("1.2.840.10008.5.1.4.1.1.88.11.0")))),
   ("MediaStorageSOPClassUID",
    some (TagValue.elemVal (ElemValue.str ("1.2.840.10008.5.1.4.1.1.88.11")))),
   ("MediaStorageSOPInstanceUID",
    some (TagValue.elemVal (ElemValue.str ("1.2.840.10008.5.1.4.1.1.88.11.0")))),
   ("Modality", (g.meta.modality).map TagValue.elemVal),
   ("StudyInstanceUID", (g.meta.studyInstanceUID).map TagValue.elemVal),
   ("ReferencedSeriesSequence", (g.meta.referencedSeriesSequence).map TagValue.refSeries),
   ("SeriesInstanceUID", some (TagValue.elemVal (ElemValue.str ("1.2.3.4.5.6")))),
   ("CompletionFlag", some (TagValue.elemVal (ElemValue.str ("PARTIAL")))),
   ("VerificationFlag", some (TagValue.elemVal (ElemValue.str ("UNVERIFIED")))),
   ("ContentDate", some (TagValue.elemVal (ElemValue.str (getDicomDate (dateToDateObj now))))),
   ("ContentTime", some (TagValue.elemVal (ElemValue.str (getDicomTime (dateToTimeObj now)))))]

/-- The flat tag mapping and trace log of `toDicom` (lines 172-242), before
element conversion: fixed and metadata tags, then — when the group is not
empty — the serialized root container wrapping one scoord node per annotation,
then the merge of the optional extra tags. -/
def toDicomTags (g : AnnotGroup) (extraTags : Option Tags) (now : Nat) :
    Tags × List String :=
  let tags := baseTags g now
  let contentSeq := g.list.map mkSRScoord
  let tags :=
    if contentSeq.length ≠ 0 then
      spreadTags tags
        (getDicomSRContentItem
          (.mk .container none (some getMeasurementGroupCode) .emptyVal contentSeq))
    else tags
  match extraTags with
  | some extra => mergeTags tags extra
  | none => (tags, [])

/-- `toDicom` from `annotationFactory.js` (lines 172-245): the final element
mapping together with the trace log entries emitted while merging extra
tags. -/
def toDicom (g : AnnotGroup) (extraTags : Option Tags) (now : Nat) :
    Elements × List String :=
  let r := toDicomTags g extraTags now
  (getElementsFromJSONTags r.1, r.2)

/-- The sub-item test of `create` line 123: value type `uidref` and
relationship `hasProperties` (the child that overwrites the id). -/
def isUidrefProp (c : DicomSRContent) : Bool :=
  c.valueType == ValueType.uidref && c.relationshipType == some RelationshipType.hasProperties

/-- The sub-item test of `create` line 127: value type `text` and relationship
`hasProperties` (the child that overwrites the text expression). -/
def isTextProp (c : DicomSRContent) : Bool :=
  c.valueType == ValueType.text && c.relationshipType == some RelationshipType.hasProperties

/-- The sub-item test of `create` line 118: value type `image` and relationship
`selectedFrom` (the child that sets the reference SOP UID). -/
def isImageSel (c : DicomSRContent) : Bool :=
  c.valueType == ValueType.image && c.relationshipType == some RelationshipType.selectedFrom

/-- The referenced-SOP-instance field of an image child's value, used to state
which value a matching image/selectedFrom child contributes. -/
def imageRefSop (c : DicomSRContent) : Option String :=
  match c.value with
  | SRValue.imageVal r => r.referencedSOPSequence.referencedSOPInstanceUID
  | _ => none

/-- A node with its child list removed; used to state that only one level of
children is inspected. -/
def dropChildren (c : DicomSRContent) : DicomSRContent :=
  .mk c.valueType c.relationshipType c.conceptNameCode c.value []

/-- A node whose direct children keep their own fields but lose their
grandchildren; `buildAnnot` cannot distinguish it from the original node,
which expresses that the scan is one level deep. -/
def pruneOneLevel (c : DicomSRContent) : DicomSRContent :=
  .mk c.valueType c.relationshipType c.conceptNameCode c.value
    (c.contentSequence.map dropChildren)

/-! ## Association-list and merge lemmas -/

theorem tags_lookup_cons_self (q : String) (v : Option TagValue) (t : Tags) :
    ((q, v) :: t).lookup q = some v := by
  simp [List.lookup]

theorem tags_lookup_cons_ne (k q : String) (v : Option TagValue) (t : Tags)
    (h : k ≠ q) : ((q, v) :: t).lookup k = t.lookup k := by
  have hb : (k == q) = false := beq_eq_false_iff_ne.mpr h
  simp [List.lookup, hb]

theorem tags_lookup_append (t s : Tags) (q : String) :
    (t ++ s).lookup q = (t.lookup q).or (s.lookup q) := by
  induction t with
  | nil => simp
  | cons kv t ih =>
    obtain ⟨a, b⟩ := kv
    by_cases hq : q = a
    · subst hq
      simp [tags_lookup_cons_self]
    · rw [List.cons_append, tags_lookup_cons_ne q a b (t ++ s) hq,
        tags_lookup_cons_ne q a b t hq, ih]

theorem lookup_map_replace (t : Tags) (k : String) (v : Option TagValue) (q : String) :
    (t.map (fun kv => if kv.1 = k then (k, v) else kv)).lookup q =
      if q = k then (t.lookup k).map (fun _ => v) else t.lookup q := by
  induction t with
  | nil => by_cases h : q = k <;> simp [h]
  | cons kv t ih =>
    obtain ⟨a, b⟩ := kv
    rw [List.map_cons]
    by_cases ha : a = k
    · have hh : (if (a, b).1 = k then (k, v) else (a, b)) = (k, v) := by
        simp [ha]
      rw [hh]
      by_cases hq : q = k
      · subst hq
        rw [tags_lookup_cons_self, if_pos rfl, ha, tags_lookup_cons_self]
        rfl
      · rw [tags_lookup_cons_ne q k v _ hq, ih, if_neg hq, if_neg hq,
          tags_lookup_cons_ne q a b t (ha ▸ hq)]
    · have hh : (if (a, b).1 = k then (k, v) else (a, b)) = (a, b) := by
        simp [ha]
      rw [hh]
      by_cases hq : q = a
      · subst hq
        rw [tags_lookup_cons_self, if_neg ha, tags_lookup_cons_self]
      · rw [tags_lookup_cons_ne q a b _ hq, ih, tags_lookup_cons_ne q a b t hq]
        by_cases h2 : q = k
        · rw [if_pos h2, if_pos h2,
            tags_lookup_cons_ne k a b t (fun he => ha he.symm)]
        · rw [if_neg h2, if_neg h2]

theorem lookup_setTag (t : Tags) (k : String) (v : Option TagValue) (q : String) :
    (setTag t k v).lookup q = if q = k then some v else t.lookup q := by
  unfold setTag
  by_cases h : (t.lookup k).isSome
  · rw [if_pos h, lookup_map_replace]
    by_cases hq : q = k
    · obtain ⟨w, hw⟩ := Option.isSome_iff_exists.mp h
      rw [if_pos hq, if_pos hq, hw]
      rfl
    · rw [if_neg hq, if_neg hq]
  · rw [if_neg h, tags_lookup_append]
    by_cases hq : q = k
    · subst hq
      rw [Option.not_isSome_iff_eq_none.mp h, tags_lookup_cons_self, if_pos rfl]
      rfl
    · rw [tags_lookup_cons_ne q k v [] hq, if_neg hq]
      show (t.lookup q).or (List.lookup q ([] : Tags)) = _
      cases t.lookup q <;> rfl

theorem jsRead_setTag (t : Tags) (k : String) (v : Option TagValue) (q : String) :
    jsRead (setTag t k v) q = if q = k then v else jsRead t q := by
  unfold jsRead
  rw [lookup_setTag]
  by_cases hq : q = k
  · rw [if_pos hq, if_pos hq]
    cases v <;> rfl
  · rw [if_neg hq, if_neg hq]

theorem foldl_mergeStep_acc (rest : Tags) :
    ∀ (t : Tags) (l0 : List String),
      rest.foldl mergeStep (t, l0) =
        ((rest.foldl mergeStep (t, [])).1, l0 ++ (rest.foldl mergeStep (t, [])).2) := by
  induction rest with
  | nil =>
    intro t l0
    simp
  | cons kv rest ih =>
    intro t l0
    rw [List.foldl_cons, List.foldl_cons]
    have h1 : mergeStep (t, l0) kv =
        (setTag t kv.1 kv.2,
         l0 ++ (if (jsRead t kv.1).isSome then [("Overwritting tag: ") ++ kv.1] else [])) := by
      unfold mergeStep
      by_cases h : (jsRead t kv.1).isSome <;> simp [h]
    have h2 : mergeStep (t, ([] : List String)) kv =
        (setTag t kv.1 kv.2,
         (if (jsRead t kv.1).isSome then [("Overwritting tag: ") ++ kv.1] else [])) := by
      unfold mergeStep
      by_cases h : (jsRead t kv.1).isSome <;> simp [h]
    rw [h1, h2]
    rw [ih (setTag t kv.1 kv.2)
      (l0 ++ (if (jsRead t kv.1).isSome then [("Overwritting tag: ") ++ kv.1] else []))]
    rw [ih (setTag t kv.1 kv.2)
      ((if (jsRead t kv.1).isSome then [("Overwritting tag: ") ++ kv.1] else []))]
    rw [List.append_assoc]

theorem mergeTags_cons (t : Tags) (kv : String × Option TagValue) (rest : Tags) :
    mergeTags t (kv :: rest) =
      ((mergeTags (setTag t kv.1 kv.2) rest).1,
       (if (jsRead t kv.1).isSome then [("Overwritting tag: ") ++ kv.1] else []) ++
         (mergeTags (setTag t kv.1 kv.2) rest).2) := by
  unfold mergeTags
  rw [List.foldl_cons]
  have h1 : mergeStep (t, ([] : List String)) kv =
      (setTag t kv.1 kv.2,
       (if (jsRead t kv.1).isSome then [("Overwritting tag: ") ++ kv.1] else [])) := by
    unfold mergeStep
    by_cases h : (jsRead t kv.1).isSome <;> simp [h]
  rw [h1, foldl_mergeStep_acc]

theorem mergeTags_lookup_not_mem (extra : Tags) :
    ∀ (t : Tags) (k : String), k ∉ extra.map Prod.fst →
      (mergeTags t extra).1.lookup k = t.lookup k := by
  induction extra with
  | nil =>
    intro t k h
    rfl
  | cons kv rest ih =>
    intro t k h
    rw [mergeTags_cons]
    show (mergeTags (setTag t kv.1 kv.2) rest).1.lookup k = t.lookup k
    have hk : k ≠ kv.1 := by
      intro he
      apply h
      rw [List.map_cons, he]
      exact List.mem_cons_self _ _
    rw [ih (setTag t kv.1 kv.2) k (fun hm => h (by rw [List.map_cons]; exact List.mem_cons_of_mem _ hm)),
      lookup_setTag, if_neg hk]

theorem mergeTags_lookup_mem (extra : Tags) :
    ∀ (t : Tags) (k : String) (v : Option TagValue),
      (extra.map Prod.fst).Nodup → (k, v) ∈ extra →
      (mergeTags t extra).1.lookup k = some v := by
  induction extra with
  | nil =>
    intro t k v _ h
    cases h
  | cons kv rest ih =>
    intro t k v hnd hm
    rw [mergeTags_cons]
    show (mergeTags (setTag t kv.1 kv.2) rest).1.lookup k = some v
    rw [List.map_cons] at hnd
    have hnd' := List.nodup_cons.mp hnd
    rcases List.mem_cons.mp hm with heq | hm2
    · have hk : k ∉ rest.map Prod.fst := by
        have : kv.1 = k := by rw [← heq]
        exact this ▸ hnd'.1
      rw [mergeTags_lookup_not_mem rest (setTag t kv.1 kv.2) k hk, ← heq,
        lookup_setTag, if_pos rfl]
    · exact ih (setTag t kv.1 kv.2) k v hnd'.2 hm2

theorem mergeTags_logs (extra : Tags) :
    ∀ (t : Tags), (extra.map Prod.fst).Nodup →
      (mergeTags t extra).2 =
        (extra.filter (fun kv => (jsRead t kv.1).isSome)).map
          (fun kv => ("Overwritting tag: ") ++ kv.1) := by
  induction extra with
  | nil =>
    intro t _
    rfl
  | cons kv rest ih =>
    intro t hnd
    rw [mergeTags_cons]
    rw [List.map_cons] at hnd
    have hnd' := List.nodup_cons.mp hnd
    show (if (jsRead t kv.1).isSome then [("Overwritting tag: ") ++ kv.1] else []) ++
        (mergeTags (setTag t kv.1 kv.2) rest).2 = _
    rw [ih (setTag t kv.1 kv.2) hnd'.2]
    have hfe : rest.filter (fun kv2 => (jsRead (setTag t kv.1 kv.2) kv2.1).isSome)
        = rest.filter (fun kv2 => (jsRead t kv2.1).isSome) := by
      apply List.filter_congr
      intro kv2 hkv2
      have hne : kv2.1 ≠ kv.1 :=
        fun he => hnd'.1 (he ▸ List.mem_map_of_mem Prod.fst hkv2)
      rw [jsRead_setTag, if_neg hne]
    rw [hfe, List.filter_cons]
    by_cases h : (jsRead t kv.1).isSome
    · simp [h]
    · simp [h]


/-! ## Import-side (`create`) lemmas -/

theorem isImageSel_iff (c : DicomSRContent) :
    isImageSel c = true ↔
      (c.valueType = ValueType.image ∧
       c.relationshipType = some RelationshipType.selectedFrom) := by
  simp [isImageSel, Bool.and_eq_true, beq_iff_eq]

theorem isUidrefProp_iff (c : DicomSRContent) :
    isUidrefProp c = true ↔
      (c.valueType = ValueType.uidref ∧
       c.relationshipType = some RelationshipType.hasProperties) := by
  simp [isUidrefProp, Bool.and_eq_true, beq_iff_eq]

theorem isTextProp_iff (c : DicomSRContent) :
    isTextProp c = true ↔
      (c.valueType = ValueType.text ∧
       c.relationshipType = some RelationshipType.hasProperties) := by
  simp [isTextProp, Bool.and_eq_true, beq_iff_eq]

theorem processSubItem_char (a : Annot) (c : DicomSRContent)
    (himg : isImageSel c = true → ∃ r, c.value = SRValue.imageVal r) :
    processSubItem a c = Except.ok
      { id := if isUidrefProp c then c.value else a.id
        mathShape := a.mathShape
        referenceSopUID := if isImageSel c then imageRefSop c else a.referenceSopUID
        textExpr := if isTextProp c then c.value else a.textExpr } := by
  by_cases h1 : c.valueType = ValueType.image ∧
      c.relationshipType = some RelationshipType.selectedFrom
  · obtain ⟨r, hr⟩ := himg ((isImageSel_iff c).mpr h1)
    have h2 : ¬(c.valueType = ValueType.uidref ∧
        c.relationshipType = some RelationshipType.hasProperties) := by
      rintro ⟨hv, _⟩
      exact absurd (h1.1.symm.trans hv) (by decide)
    have h3 : ¬(c.valueType = ValueType.text ∧
        c.relationshipType = some RelationshipType.hasProperties) := by
      rintro ⟨hv, _⟩
      exact absurd (h1.1.symm.trans hv) (by decide)
    have b1 : isImageSel c = true := (isImageSel_iff c).mpr h1
    have b2 : isUidrefProp c = false :=
      Bool.eq_false_iff.mpr (fun ht => h2 ((isUidrefProp_iff c).mp ht))
    have b3 : isTextProp c = false :=
      Bool.eq_false_iff.mpr (fun ht => h3 ((isTextProp_iff c).mp ht))
    simp only [processSubItem, if_pos h1, hr, refSopAccess, if_neg h2, if_neg h3,
      b1, b2, b3, if_true, if_false, imageRefSop, Bool.false_eq_true]
    rfl
  · have b1 : isImageSel c = false :=
      Bool.eq_false_iff.mpr (fun ht => h1 ((isImageSel_iff c).mp ht))
    by_cases h2 : c.valueType = ValueType.uidref ∧
        c.relationshipType = some RelationshipType.hasProperties
    · have h3 : ¬(c.valueType = ValueType.text ∧
          c.relationshipType = some RelationshipType.hasProperties) := by
        rintro ⟨hv, _⟩
        exact absurd (h2.1.symm.trans hv) (by decide)
      have b2 : isUidrefProp c = true := (isUidrefProp_iff c).mpr h2
      have b3 : isTextProp c = false :=
        Bool.eq_false_iff.mpr (fun ht => h3 ((isTextProp_iff c).mp ht))
      simp only [processSubItem, if_neg h1, if_pos h2, if_neg h3,
        b1, b2, b3, if_true, if_false, Bool.false_eq_true]
      rfl
    · have b2 : isUidrefProp c = false :=
        Bool.eq_false_iff.mpr (fun ht => h2 ((isUidrefProp_iff c).mp ht))
      by_cases h3 : c.valueType = ValueType.text ∧
          c.relationshipType = some RelationshipType.hasProperties
      · have b3 : isTextProp c = true := (isTextProp_iff c).mpr h3
        simp only [processSubItem, if_neg h1, if_neg h2, if_pos h3,
          b1, b2, b3, if_true, if_false, Bool.false_eq_true]
        rfl
      · have b3 : isTextProp c = false :=
          Bool.eq_false_iff.mpr (fun ht => h3 ((isTextProp_iff c).mp ht))
        simp only [processSubItem, if_neg h1, if_neg h2, if_neg h3,
          b1, b2, b3, if_true, if_false, Bool.false_eq_true]
        rfl

theorem find?_singleton {α : Type} (p : α → Bool) (c : α) :
    ([c].find? p) = if p c then some c else none := by
  by_cases h : p c = true
  · rw [List.find?_cons_of_pos _ h, if_pos h]
  · rw [List.find?_cons_of_neg _ (by simpa using h), if_neg h]
    rfl

theorem elim_or_single {α β : Type} (o : Option α) (p : α → Bool) (c : α)
    (d : β) (f : α → β) :
    ((o.or (if p c then some c else none)).elim d f) =
      o.elim (if p c then f c else d) f := by
  cases o
  · by_cases h : p c = true
    · rw [if_pos h, if_pos h]
      rfl
    · rw [if_neg h, if_neg h]
      rfl
  · rfl

theorem foldlM_processSubItem (l : List DicomSRContent) :
    ∀ (a : Annot),
      (∀ c ∈ l, isImageSel c = true → ∃ r, c.value = SRValue.imageVal r) →
      l.foldlM processSubItem a = Except.ok
        { id := ((l.reverse.find? isUidrefProp).elim a.id DicomSRContent.value)
          mathShape := a.mathShape
          referenceSopUID := ((l.reverse.find? isImageSel).elim a.referenceSopUID imageRefSop)
          textExpr := ((l.reverse.find? isTextProp).elim a.textExpr DicomSRContent.value) } := by
  induction l with
  | nil =>
    intro a h
    rfl
  | cons c l ih =>
    intro a h
    rw [List.foldlM_cons, processSubItem_char a c (h c (List.mem_cons_self c l))]
    show List.foldlM processSubItem _ l = _
    rw [ih _ (fun c2 hc2 => h c2 (List.mem_cons_of_mem c hc2))]
    have hrev : (c :: l).reverse = l.reverse ++ [c] := by simp
    rw [hrev]
    rw [List.find?_append, List.find?_append, List.find?_append,
      find?_singleton, find?_singleton, find?_singleton,
      elim_or_single, elim_or_single, elim_or_single]


theorem buildAnnot_char (gid : String) (item : DicomSRContent)
    (himg : ∀ c ∈ item.contentSequence, isImageSel c = true →
      ∃ r, c.value = SRValue.imageVal r) :
    buildAnnot gid item = Except.ok
      { id := ((item.contentSequence.reverse.find? isUidrefProp).elim
          (SRValue.strVal gid) DicomSRContent.value)
        mathShape := getShapeFromScoord item.value
        referenceSopUID := ((item.contentSequence.reverse.find? isImageSel).elim
          none imageRefSop)
        textExpr := ((item.contentSequence.reverse.find? isTextProp).elim
          (SRValue.strVal ("")) DicomSRContent.value) } := by
  unfold buildAnnot
  exact foldlM_processSubItem item.contentSequence _ himg

theorem processSubItem_dropChildren (a : Annot) (c : DicomSRContent) :
    processSubItem a (dropChildren c) = processSubItem a c := by
  cases c
  rfl

theorem buildAnnot_pruneOneLevel (gid : String) (item : DicomSRContent) :
    buildAnnot gid (pruneOneLevel item) = buildAnnot gid item := by
  unfold buildAnnot pruneOneLevel
  show List.foldlM processSubItem _ (item.contentSequence.map dropChildren) = _
  have : ∀ (l : List DicomSRContent) (a : Annot),
      List.foldlM processSubItem a (l.map dropChildren) =
        List.foldlM processSubItem a l := by
    intro l
    induction l with
    | nil => intro a; rfl
    | cons c l ih =>
      intro a
      rw [List.map_cons, List.foldlM_cons, List.foldlM_cons,
        processSubItem_dropChildren]
      cases h : processSubItem a c
      · rfl
      · show List.foldlM processSubItem _ (l.map dropChildren) = _
        exact ih _
  exact this item.contentSequence _

theorem buildAnnot_mkSRScoord (gid : String) (a : Annot) :
    buildAnnot gid (mkSRScoord a) = Except.ok a := by
  obtain ⟨i, sh, r, t⟩ := a
  rfl

theorem createAnnots_map_mkSRScoord (l : List Annot) :
    ∀ (guids : Nat → String) (k : Nat),
      createAnnots (l.map mkSRScoord) guids k = Except.ok l := by
  induction l with
  | nil =>
    intro guids k
    rfl
  | cons a l ih =>
    intro guids k
    rw [List.map_cons]
    show createAnnots (mkSRScoord a :: l.map mkSRScoord) guids k = _
    unfold createAnnots
    rw [if_pos (show (mkSRScoord a).valueType = ValueType.scoord from rfl)]
    rw [buildAnnot_mkSRScoord]
    show (do
      let rest' ← createAnnots (l.map mkSRScoord) guids (k + 1)
      Except.ok (a :: rest')) = _
    rw [ih guids (k + 1)]
    rfl

theorem createAnnots_ok_char (items : List DicomSRContent) :
    ∀ (guids : Nat → String) (k : Nat) (l : List Annot),
      createAnnots items guids k = Except.ok l →
      l.length = (items.filter (fun c => c.valueType == ValueType.scoord)).length ∧
      ∀ (i : Nat) (hi : i < l.length)
        (hs : i < (items.filter (fun c => c.valueType == ValueType.scoord)).length),
        buildAnnot (guids (k + i))
            ((items.filter (fun c => c.valueType == ValueType.scoord)).get ⟨i, hs⟩) =
          Except.ok (l.get ⟨i, hi⟩) := by
  induction items with
  | nil =>
    intro guids k l h
    have hl : l = [] := by
      cases h
      rfl
    subst hl
    refine ⟨rfl, ?_⟩
    intro i hi hs
    exact absurd hi (by simp)
  | cons c items ih =>
    intro guids k l h
    by_cases hc : c.valueType = ValueType.scoord
    · rw [createAnnots, if_pos hc] at h
      cases hba : buildAnnot (guids k) c with
      | error e =>
        rw [hba] at h
        cases h
      | ok a =>
        rw [hba] at h
        cases hcr : createAnnots items guids (k + 1) with
        | error e =>
          rw [hcr] at h
          cases h
        | ok l2 =>
          rw [hcr] at h
          have hl : l = a :: l2 := by
            cases h
            rfl
          subst hl
          have hfc : (c :: items).filter (fun c2 => c2.valueType == ValueType.scoord) =
              c :: items.filter (fun c2 => c2.valueType == ValueType.scoord) := by
            rw [List.filter_cons, if_pos (by simp [hc])]
          obtain ⟨ihlen, ihget⟩ := ih guids (k + 1) l2 hcr
          rw [hfc]
          refine ⟨by simpa using ihlen, ?_⟩
          intro i hi hs
          cases i with
          | zero =>
            show buildAnnot (guids (k + 0)) c = _
            simpa using hba
          | succ j =>
            have hj : j < l2.length := by simpa using hi
            have hjs : j <
                (items.filter (fun c2 => c2.valueType == ValueType.scoord)).length := by
              simpa using hs
            have := ihget j hj hjs
            have harith : k + 1 + j = k + (j + 1) := by omega
            rw [harith] at this
            simpa using this
    · rw [createAnnots, if_neg hc] at h
      have hfc : (c :: items).filter (fun c2 => c2.valueType == ValueType.scoord) =
          items.filter (fun c2 => c2.valueType == ValueType.scoord) := by
        rw [List.filter_cons, if_neg (by simp [hc])]
      rw [hfc]
      exact ih guids k l h

theorem create_cont (els : Elements) (guids : Nat → String) (l : List Annot)
    (h : createAnnots (getSRContent els).contentSequence guids 0 = Except.ok l) :
    create els guids = (do
      let modality ← elemFirst els ("00080060")
      let refSeries ← readRefSeries els
      let study ← elemFirst els ("0020000D")
      Except.ok
        { list := l
          meta :=
            { modality := modality
              studyInstanceUID := study
              referencedSeriesSequence := refSeries } } : Except String AnnotGroup) := by
  unfold create
  rw [h]
  rfl


theorem except_bind_ok {e a b : Type} (x : a) (f : a → Except e b) :
    (Except.ok x >>= f) = f x := rfl

theorem except_bind_error {e a b : Type} (err : e) (f : a → Except e b) :
    ((Except.error err : Except e a) >>= f) = Except.error err := rfl

theorem create_ok_inv (els : Elements) (guids : Nat → String) (grp : AnnotGroup)
    (h : create els guids = Except.ok grp) :
    ∃ l mv rs sv,
      createAnnots (getSRContent els).contentSequence guids 0 = Except.ok l ∧
      elemFirst els ("00080060") = Except.ok mv ∧
      readRefSeries els = Except.ok rs ∧
      elemFirst els ("0020000D") = Except.ok sv ∧
      grp = { list := l
              meta := { modality := mv, studyInstanceUID := sv,
                        referencedSeriesSequence := rs } } := by
  unfold create at h
  cases h1 : createAnnots (getSRContent els).contentSequence guids 0 with
  | error e =>
    rw [h1, except_bind_error] at h
    exact Except.noConfusion h
  | ok l =>
    rw [h1, except_bind_ok] at h
    cases h2 : elemFirst els ("00080060") with
    | error e =>
      rw [h2, except_bind_error] at h
      exact Except.noConfusion h
    | ok mv =>
      rw [h2, except_bind_ok] at h
      cases h3 : readRefSeries els with
      | error e =>
        rw [h3, except_bind_error] at h
        exact Except.noConfusion h
      | ok rs =>
        rw [h3, except_bind_ok] at h
        cases h4 : elemFirst els ("0020000D") with
        | error e =>
          rw [h4, except_bind_error] at h
          exact Except.noConfusion h
        | ok sv =>
          rw [h4, except_bind_ok] at h
          refine ⟨l, mv, rs, sv, rfl, rfl, rfl, rfl, ?_⟩
          cases h
          rfl

theorem create_error_of_missing (els : Elements) (guids : Nat → String)
    (hmiss : els.lookup ("00080060") = none ∨ els.lookup ("0020000D") = none) :
    ∃ e, create els guids = Except.error e := by
  cases h1 : createAnnots (getSRContent els).contentSequence guids 0 with
  | error e =>
    exact ⟨e, by unfold create; rw [h1, except_bind_error]⟩
  | ok l =>
    cases hmod : elemFirst els ("00080060") with
    | error e =>
      exact ⟨e, by unfold create; rw [h1, except_bind_ok, hmod, except_bind_error]⟩
    | ok mv =>
      rcases hmiss with hm | hs
      · unfold elemFirst at hmod
        rw [hm] at hmod
        exact Except.noConfusion hmod
      · cases hrs : readRefSeries els with
        | error e =>
          exact ⟨e, by
            unfold create
            rw [h1, except_bind_ok, hmod, except_bind_ok, hrs, except_bind_error]⟩
        | ok rs =>
          refine ⟨("TypeError"), ?_⟩
          unfold create
          rw [h1, except_bind_ok, hmod, except_bind_ok, hrs, except_bind_ok]
          unfold elemFirst
          rw [hs]
          rfl

theorem create_error_of_refseries (els : Elements) (guids : Nat → String)
    (vs : List ElemValue) (hl : els.lookup ("00081115") = some vs)
    (hh : vs.head? = none) :
    ∃ e, create els guids = Except.error e := by
  have hrs : readRefSeries els = Except.error ("TypeError") := by
    unfold readRefSeries
    simp only [hl, hh]
  cases h1 : createAnnots (getSRContent els).contentSequence guids 0 with
  | error e =>
    exact ⟨e, by unfold create; rw [h1, except_bind_error]⟩
  | ok l =>
    cases hmod : elemFirst els ("00080060") with
    | error e =>
      exact ⟨e, by unfold create; rw [h1, except_bind_ok, hmod, except_bind_error]⟩
    | ok mv =>
      exact ⟨("TypeError"), by
        unfold create
        rw [h1, except_bind_ok, hmod, except_bind_ok, hrs, except_bind_error]⟩

/-! ## Export-side (`toDicom`) computation lemmas -/

theorem toDicomTags_nil (m : GroupMeta) (now : Nat) :
    toDicomTags { list := [], meta := m } none now =
      (baseTags { list := [], meta := m } now, []) := rfl

theorem toDicomTags_cons (a : Annot) (l : List Annot) (m : GroupMeta) (now : Nat) :
    toDicomTags { list := a :: l, meta := m } none now =
      (baseTags { list := a :: l, meta := m } now ++
        [("ValueType", some (TagValue.elemVal (ElemValue.str ("CONTAINER")))),
         ("ConceptNameCodeSequence",
          some (TagValue.elemVal (ElemValue.codeVal getMeasurementGroupCode))),
         ("ContentSequence", some (TagValue.srTree ((a :: l).map mkSRScoord)))],
       []) := rfl


/-! ## Claim theorems -/

/-- C2 (counterexample): a root concept-name code whose value field equals the
fixed measurement-group code's value but whose meaning differs is a different
code, yet `checkElements` reports no warning, because line 88 of
`annotationFactory.js` compares only the `value` fields.  This refutes the
claim that a present root code different from the fixed code always yields
"Not a measurement group". -/
theorem c2_counterexample :
    ((getSRContent [(("0040A043" : String),
        [ElemValue.codeVal { meaning := "Foo", value := "125007" }])]).conceptNameCode =
      some { meaning := "Foo", value := "125007" }) ∧
    ((some { meaning := "Foo", value := "125007" } : Option DicomCode) ≠
      some getMeasurementGroupCode) ∧
    ((checkElements none [(("0040A043" : String),
        [ElemValue.codeVal { meaning := "Foo", value := "125007" }])]).1 ≠
      some ("Not a measurement group")) := by
  refine ⟨rfl, by decide, by decide⟩

/-- C2 (amended): `checkElements` returns "No root concept name code" when the
extracted SR root has no concept-name code, "Not a measurement group" when a
root code is present whose value field differs from the fixed
measurement-group code's value, and `undefined` when the value fields are
equal; in every case the returned value equals the newly stored warning (the
previously stored warning is cleared first). -/
theorem c2_checkElements_warning (prev : Option String) (els : Elements) :
    (checkElements prev els).1 = (checkElements prev els).2 ∧
    (checkElements prev els).1 =
      (match (getSRContent els).conceptNameCode with
       | some c =>
         if c.value = getMeasurementGroupCode.value then none
         else some ("Not a measurement group")
       | none => some ("No root concept name code")) := by
  refine ⟨rfl, ?_⟩
  unfold checkElements
  cases h : (getSRContent els).conceptNameCode with
  | none => simp [h]
  | some c =>
    by_cases hv : c.value = getMeasurementGroupCode.value
    · simp [h, hv]
    · simp [h, hv]

/-- C7: for every group, the generated tag set holds the fixed constants:
Explicit VR Little Endian transfer syntax, Basic Text SR Storage SOP class,
the fixed placeholder SOP instance UID, completion flag "PARTIAL",
verification flag "UNVERIFIED", and the constant placeholder
SeriesInstanceUID, independent of the group's contents and metadata. -/
theorem c7_fixed_protocol_tags (g : AnnotGroup) (now : Nat) :
    jsRead (toDicomTags g none now).1 ("TransferSyntaxUID") =
      some (TagValue.elemVal (ElemValue.str ("1.2.840.10008.1.2.1"))) ∧
    jsRead (toDicomTags g none now).1 ("SOPClassUID") =
      some (TagValue.elemVal (ElemValue.str ("1.2.840.10008.5.1.4.1.1.88.11"))) ∧
    jsRead (toDicomTags g none now).1 ("SOPInstanceUID") =
      some (TagValue.elemVal (ElemValue.str ("1.2.840.10008.5.1.4.1.1.88.11.0"))) ∧
    jsRead (toDicomTags g none now).1 ("CompletionFlag") =
      some (TagValue.elemVal (ElemValue.str ("PARTIAL"))) ∧
    jsRead (toDicomTags g none now).1 ("VerificationFlag") =
      some (TagValue.elemVal (ElemValue.str ("UNVERIFIED"))) ∧
    jsRead (toDicomTags g none now).1 ("SeriesInstanceUID") =
      some (TagValue.elemVal (ElemValue.str ("1.2.3.4.5.6"))) := by
  obtain ⟨gl, m⟩ := g
  cases gl with
  | nil => exact ⟨rfl, rfl, rfl, rfl, rfl, rfl⟩
  | cons a l => exact ⟨rfl, rfl, rfl, rfl, rfl, rfl⟩

/-- C8: for every annotation, `toDicom` builds a scoord node with relationship
`contains` and the fixed image-region code, whose content sequence is exactly,
in this order: an image/selectedFrom node with the source-image code carrying
the reference SOP UID, a uidref/hasProperties node with the
tracking-identifier code carrying the id, and a text/hasProperties node with
the short-label code carrying the text expression. -/
theorem c8_scoord_node (a : Annot) :
    (mkSRScoord a).valueType = ValueType.scoord ∧
    (mkSRScoord a).relationshipType = some RelationshipType.contains ∧
    (mkSRScoord a).conceptNameCode = some getImageRegionCode ∧
    (mkSRScoord a).value = SRValue.scoordVal (getScoordFromShape a.mathShape) ∧
    (mkSRScoord a).contentSequence =
      [DicomSRContent.mk ValueType.image (some RelationshipType.selectedFrom)
         (some getSourceImageCode)
         (SRValue.imageVal
           { referencedSOPSequence :=
             { referencedSOPClassUID := some ("")
               referencedSOPInstanceUID := a.referenceSopUID } }) [],
       DicomSRContent.mk ValueType.uidref (some RelationshipType.hasProperties)
         (some getTrackingIdentifierCode) a.id [],
       DicomSRContent.mk ValueType.text (some RelationshipType.hasProperties)
         (some getShortLabelCode) a.textExpr []] :=
  ⟨rfl, rfl, rfl, rfl, rfl⟩

/-- C6: for a group with zero annotations `toDicom` omits all SR content-tree
tags (no empty container is emitted) and the tag set is exactly the fixed
protocol tags plus the metadata copied from the group; for a group with at
least one annotation all scoord nodes are wrapped under a single root
container whose concept-name code is the fixed measurement-group code. -/
theorem c6_empty_group_content (g : AnnotGroup) (now : Nat) :
    (g.list = [] →
      (toDicomTags g none now).1.lookup ("ValueType") = none ∧
      (toDicomTags g none now).1.lookup ("ConceptNameCodeSequence") = none ∧
      (toDicomTags g none now).1.lookup ("ContentSequence") = none ∧
      (toDicomTags g none now).1 = baseTags g now) ∧
    (g.list ≠ [] →
      jsRead (toDicomTags g none now).1 ("ValueType") =
        some (TagValue.elemVal (ElemValue.str ("CONTAINER"))) ∧
      jsRead (toDicomTags g none now).1 ("ConceptNameCodeSequence") =
        some (TagValue.elemVal (ElemValue.codeVal getMeasurementGroupCode)) ∧
      jsRead (toDicomTags g none now).1 ("ContentSequence") =
        some (TagValue.srTree (g.list.map mkSRScoord))) := by
  obtain ⟨gl, m⟩ := g
  cases gl with
  | nil =>
    refine ⟨fun _ => ⟨rfl, rfl, rfl, rfl⟩, fun h => absurd rfl h⟩
  | cons a l =>
    refine ⟨fun h => ?_, fun _ => ⟨rfl, rfl, rfl⟩⟩
    simp at h

/-- Witness for C6 at a concrete empty group and a concrete one-annotation
group. -/
theorem c6_empty_group_content_witness :
    ((toDicomTags
        { list := []
          meta := { modality := none, studyInstanceUID := none,
                    referencedSeriesSequence := none } } none 0).1.lookup
      ("ContentSequence") = none) ∧
    (jsRead (toDicomTags
        { list := [{ id := SRValue.strVal ("i"), mathShape := MathShape.point 1 2,
                     referenceSopUID := some ("s"), textExpr := SRValue.strVal ("t") }]
          meta := { modality := none, studyInstanceUID := none,
                    referencedSeriesSequence := none } } none 0).1
      ("ConceptNameCodeSequence") =
      some (TagValue.elemVal (ElemValue.codeVal getMeasurementGroupCode))) := by
  constructor
  · exact ((c6_empty_group_content _ 0).1 rfl).2.2.1
  · exact ((c6_empty_group_content _ 0).2 (by simp)).2.1

/-- C9: merging extra tags puts every extra key into the final tag set with
the extra value, overriding generated values; exactly one trace log entry per
overwritten defined tag is emitted, naming the key, in key order; the merge is
a total function (it never raises); and concretely, exporting a group whose
Modality metadata is MR with extra tag Modality=CT yields element 00080060
with value CT and exactly one trace entry naming Modality. -/
theorem c9_extraTags_merge (t extra : Tags) (hnd : (extra.map Prod.fst).Nodup) :
    (∀ k v, (k, v) ∈ extra → (mergeTags t extra).1.lookup k = some v) ∧
    ((mergeTags t extra).2 =
      (extra.filter (fun kv => (jsRead t kv.1).isSome)).map
        (fun kv => ("Overwritting tag: ") ++ kv.1)) ∧
    ((toDicom { list := []
                meta := { modality := some (ElemValue.str ("MR"))
                          studyInstanceUID := none
                          referencedSeriesSequence := none } }
        (some [("Modality", some (TagValue.elemVal (ElemValue.str ("CT"))))]) 0).1.lookup
        ("00080060") = some [ElemValue.str ("CT")] ∧
     (toDicom { list := []
                meta := { modality := some (ElemValue.str ("MR"))
                          studyInstanceUID := none
                          referencedSeriesSequence := none } }
        (some [("Modality", some (TagValue.elemVal (ElemValue.str ("CT"))))]) 0).2 =
       [("Overwritting tag: Modality")]) := by
  refine ⟨fun k v hm => mergeTags_lookup_mem extra t k v hnd hm,
    mergeTags_logs extra t hnd, rfl, rfl⟩

/-- Witness for C9 at a concrete tag set and extra-tag list. -/
theorem c9_extraTags_merge_witness :
    ((([("Modality", some (TagValue.elemVal (ElemValue.str ("CT"))))] : Tags).map
        Prod.fst).Nodup) ∧
    (∀ k v, (k, v) ∈ ([("Modality", some (TagValue.elemVal (ElemValue.str ("CT"))))] : Tags) →
      (mergeTags [("Modality", some (TagValue.elemVal (ElemValue.str ("MR"))))]
        [("Modality", some (TagValue.elemVal (ElemValue.str ("CT"))))]).1.lookup k =
        some v) := by
  have hnd : (([("Modality", some (TagValue.elemVal (ElemValue.str ("CT"))))] : Tags).map
      Prod.fst).Nodup := by simp
  exact ⟨hnd, (c9_extraTags_merge
    [("Modality", some (TagValue.elemVal (ElemValue.str ("MR"))))]
    [("Modality", some (TagValue.elemVal (ElemValue.str ("CT"))))] hnd).1⟩

/-- C10: the overwrite trace log is keyed on the existing value being defined,
not on key presence: an extra key whose generated value is undefined is still
replaced but produces no trace entry; concretely, exporting a group without
Modality metadata with extra tag Modality=CT emits no log at all while the
final element set still holds Modality=CT. -/
theorem c10_undefined_overwrite_no_log (t extra : Tags)
    (hnd : (extra.map Prod.fst).Nodup) (k : String) (v : Option TagValue)
    (hmem : (k, v) ∈ extra) (hund : jsRead t k = none) :
    ((mergeTags t extra).1.lookup k = some v) ∧
    (k ∉ (extra.filter (fun kv => (jsRead t kv.1).isSome)).map Prod.fst) ∧
    ((mergeTags t extra).2 =
      (extra.filter (fun kv => (jsRead t kv.1).isSome)).map
        (fun kv => ("Overwritting tag: ") ++ kv.1)) ∧
    ((toDicom { list := []
                meta := { modality := none, studyInstanceUID := none,
                          referencedSeriesSequence := none } }
        (some [("Modality", some (TagValue.elemVal (ElemValue.str ("CT"))))]) 0).2 = [] ∧
     (toDicom { list := []
                meta := { modality := none, studyInstanceUID := none,
                          referencedSeriesSequence := none } }
        (some [("Modality", some (TagValue.elemVal (ElemValue.str ("CT"))))]) 0).1.lookup
        ("00080060") = some [ElemValue.str ("CT")]) := by
  refine ⟨mergeTags_lookup_mem extra t k v hnd hmem, ?_,
    mergeTags_logs extra t hnd, rfl, rfl⟩
  intro hk
  obtain ⟨kv, hkv, hfst⟩ := List.mem_map.mp hk
  have hp := List.of_mem_filter hkv
  rw [hfst, hund] at hp
  simp at hp

/-- Witness for C10: merging Modality=CT over a tag set holding Modality as
undefined. -/
theorem c10_undefined_overwrite_no_log_witness :
    ((([("Modality", some (TagValue.elemVal (ElemValue.str ("CT"))))] : Tags).map
        Prod.fst).Nodup) ∧
    (("Modality", some (TagValue.elemVal (ElemValue.str ("CT")))) ∈
      ([("Modality", some (TagValue.elemVal (ElemValue.str ("CT"))))] : Tags)) ∧
    (jsRead [(("Modality" : String), (none : Option TagValue))] ("Modality") = none) ∧
    ((mergeTags [(("Modality" : String), (none : Option TagValue))]
        [("Modality", some (TagValue.elemVal (ElemValue.str ("CT"))))]).1.lookup
      ("Modality") = some (some (TagValue.elemVal (ElemValue.str ("CT"))))) := by
  refine ⟨by simp, by simp, rfl, ?_⟩
  exact (c10_undefined_overwrite_no_log
    [(("Modality" : String), (none : Option TagValue))]
    [("Modality", some (TagValue.elemVal (ElemValue.str ("CT"))))]
    (by simp) ("Modality") (some (TagValue.elemVal (ElemValue.str ("CT"))))
    (by simp) rfl).1


/-- C3: for a scoord child whose image/selectedFrom children carry image
references, `create`'s per-scoord loop body builds one annotation whose id
defaults to the fresh generated identifier and is overwritten by the value of
the last uidref/hasProperties direct child, whose text expression defaults to
the empty string and is overwritten by the value of the last
text/hasProperties direct child, and whose reference SOP UID is the
referenced-SOP-instance field of the last image/selectedFrom direct child
(unset when there is none); only direct children are inspected: removing all
grandchildren does not change the result. -/
theorem c3_scoord_child_fields (gid : String) (item : DicomSRContent)
    (himg : ∀ c ∈ item.contentSequence, isImageSel c = true →
      ∃ r, c.value = SRValue.imageVal r) :
    buildAnnot gid item = Except.ok
      { id := ((item.contentSequence.reverse.find? isUidrefProp).elim
          (SRValue.strVal gid) DicomSRContent.value)
        mathShape := getShapeFromScoord item.value
        referenceSopUID := ((item.contentSequence.reverse.find? isImageSel).elim
          none imageRefSop)
        textExpr := ((item.contentSequence.reverse.find? isTextProp).elim
          (SRValue.strVal ("")) DicomSRContent.value) } ∧
    buildAnnot gid (pruneOneLevel item) = buildAnnot gid item :=
  ⟨buildAnnot_char gid item himg, buildAnnot_pruneOneLevel gid item⟩

/-- Witness for C3: a scoord child with two uidref/hasProperties children and
one text/hasProperties child; the last uidref child wins. -/
theorem c3_scoord_child_fields_witness :
    (∀ c ∈ (DicomSRContent.mk ValueType.scoord (some RelationshipType.contains) none
        (SRValue.scoordVal { shape := MathShape.point 1 2 })
        [DicomSRContent.mk ValueType.uidref (some RelationshipType.hasProperties) none
           (SRValue.strVal ("id-a")) [],
         DicomSRContent.mk ValueType.text (some RelationshipType.hasProperties) none
           (SRValue.strVal ("hello")) [],
         DicomSRContent.mk ValueType.uidref (some RelationshipType.hasProperties) none
           (SRValue.strVal ("id-b")) []]).contentSequence,
      isImageSel c = true → ∃ r, c.value = SRValue.imageVal r) ∧
    buildAnnot ("fresh") (DicomSRContent.mk ValueType.scoord
        (some RelationshipType.contains) none
        (SRValue.scoordVal { shape := MathShape.point 1 2 })
        [DicomSRContent.mk ValueType.uidref (some RelationshipType.hasProperties) none
           (SRValue.strVal ("id-a")) [],
         DicomSRContent.mk ValueType.text (some RelationshipType.hasProperties) none
           (SRValue.strVal ("hello")) [],
         DicomSRContent.mk ValueType.uidref (some RelationshipType.hasProperties) none
           (SRValue.strVal ("id-b")) []]) = Except.ok
      { id := SRValue.strVal ("id-b")
        mathShape := MathShape.point 1 2
        referenceSopUID := none
        textExpr := SRValue.strVal ("hello") } := by
  have himg : ∀ c ∈ (DicomSRContent.mk ValueType.scoord (some RelationshipType.contains)
      none (SRValue.scoordVal { shape := MathShape.point 1 2 })
      [DicomSRContent.mk ValueType.uidref (some RelationshipType.hasProperties) none
         (SRValue.strVal ("id-a")) [],
       DicomSRContent.mk ValueType.text (some RelationshipType.hasProperties) none
         (SRValue.strVal ("hello")) [],
       DicomSRContent.mk ValueType.uidref (some RelationshipType.hasProperties) none
         (SRValue.strVal ("id-b")) []]).contentSequence,
      isImageSel c = true → ∃ r, c.value = SRValue.imageVal r := by
    intro c hc him
    rcases List.mem_cons.mp hc with rfl | hc2
    · exact absurd him (by decide)
    rcases List.mem_cons.mp hc2 with rfl | hc3
    · exact absurd him (by decide)
    rcases List.mem_cons.mp hc3 with rfl | hc4
    · exact absurd him (by decide)
    · exact absurd hc4 (List.not_mem_nil c)
  exact ⟨himg, (c3_scoord_child_fields ("fresh") _ himg).1⟩

/-- C4: `create`'s loop produces exactly one annotation per direct scoord
child of the SR root, in content-sequence order (non-scoord children are
ignored), the i-th annotation being built from the i-th scoord child; every
node emitted by `toDicom` for an annotation is a scoord node; the exported
content sequence lists them in group order (and is absent for an empty
group); and re-importing the emitted scoord nodes yields the original
annotation list in the same order. -/
theorem c4_order_preservation (items : List DicomSRContent) (guids : Nat → String)
    (k : Nat) (l : List Annot) (h : createAnnots items guids k = Except.ok l)
    (g : AnnotGroup) (now : Nat) :
    (l.length = (items.filter (fun c => c.valueType == ValueType.scoord)).length ∧
     ∀ (i : Nat) (hi : i < l.length)
       (hs : i < (items.filter (fun c => c.valueType == ValueType.scoord)).length),
       buildAnnot (guids (k + i))
           ((items.filter (fun c => c.valueType == ValueType.scoord)).get ⟨i, hs⟩) =
         Except.ok (l.get ⟨i, hi⟩)) ∧
    (∀ a : Annot, (mkSRScoord a).valueType = ValueType.scoord) ∧
    (g.list = [] → (toDicomTags g none now).1.lookup ("ContentSequence") = none) ∧
    (g.list ≠ [] → jsRead (toDicomTags g none now).1 ("ContentSequence") =
      some (TagValue.srTree (g.list.map mkSRScoord))) ∧
    createAnnots (g.list.map mkSRScoord) guids 0 = Except.ok g.list := by
  refine ⟨createAnnots_ok_char items guids k l h, fun a => rfl, ?_, ?_,
    createAnnots_map_mkSRScoord g.list guids 0⟩
  · obtain ⟨gl, m⟩ := g
    intro he
    cases gl with
    | nil => rfl
    | cons a t => simp at he
  · obtain ⟨gl, m⟩ := g
    intro hne
    cases gl with
    | nil => exact absurd rfl hne
    | cons a t => rfl

/-- Witness for C4: a root with one scoord child followed by one text child
produces exactly one annotation. -/
theorem c4_order_preservation_witness :
    (createAnnots
      [DicomSRContent.mk ValueType.scoord (some RelationshipType.contains) none
         (SRValue.scoordVal { shape := MathShape.point 3 4 }) [],
       DicomSRContent.mk ValueType.text (some RelationshipType.hasProperties) none
         (SRValue.strVal ("x")) []]
      (fun n => ("g") ++ toString n) 0 = Except.ok
        [{ id := SRValue.strVal ("g0")
           mathShape := MathShape.point 3 4
           referenceSopUID := none
           textExpr := SRValue.strVal ("") }]) ∧
    ([({ id := SRValue.strVal ("g0")
         mathShape := MathShape.point 3 4
         referenceSopUID := none
         textExpr := SRValue.strVal ("") } : Annot)].length =
      ([DicomSRContent.mk ValueType.scoord (some RelationshipType.contains) none
          (SRValue.scoordVal { shape := MathShape.point 3 4 }) [],
        DicomSRContent.mk ValueType.text (some RelationshipType.hasProperties) none
          (SRValue.strVal ("x")) []].filter
        (fun c => c.valueType == ValueType.scoord)).length) := by
  refine ⟨rfl, ?_⟩
  exact (c4_order_preservation
    [DicomSRContent.mk ValueType.scoord (some RelationshipType.contains) none
       (SRValue.scoordVal { shape := MathShape.point 3 4 }) [],
     DicomSRContent.mk ValueType.text (some RelationshipType.hasProperties) none
       (SRValue.strVal ("x")) []]
    (fun n => ("g") ++ toString n) 0
    [{ id := SRValue.strVal ("g0")
       mathShape := MathShape.point 3 4
       referenceSopUID := none
       textExpr := SRValue.strVal ("") }] rfl
    { list := []
      meta := { modality := none, studyInstanceUID := none,
                referencedSeriesSequence := none } } 0).1.1


/-- C5 (counterexample): an element mapping containing Modality (00080060),
StudyInstanceUID (0020000D) and element 00081115 with an empty value array
makes `create` raise — `element.value[0]` is undefined and the access
`undefined["0020000E"]` throws — instead of silently omitting
ReferencedSeriesSequence, refuting the claim's "otherwise silently omitted
without error". -/
theorem c5_counterexample :
    ((([("00080060", [ElemValue.str ("MR")]), ("0020000D", [ElemValue.str ("1.2")]),
        ("00081115", ([] : List ElemValue))] : Elements).lookup
      ("00080060")).isSome = true) ∧
    ((([("00080060", [ElemValue.str ("MR")]), ("0020000D", [ElemValue.str ("1.2")]),
        ("00081115", ([] : List ElemValue))] : Elements).lookup
      ("0020000D")).isSome = true) ∧
    (([("00080060", [ElemValue.str ("MR")]), ("0020000D", [ElemValue.str ("1.2")]),
       ("00081115", ([] : List ElemValue))] : Elements).lookup
      ("00081115") = some []) ∧
    (create [("00080060", [ElemValue.str ("MR")]), ("0020000D", [ElemValue.str ("1.2")]),
       ("00081115", ([] : List ElemValue))] (fun _ => ("g")) =
      Except.error ("TypeError")) :=
  ⟨rfl, rfl, rfl, rfl⟩

/-- C5 (amended): `create` raises whenever element 00080060 or 0020000D is
absent; it also raises when element 00081115 is present but its value array
has no first item; when it returns a group, Modality and StudyInstanceUID
metadata are the first values of elements 00080060 and 0020000D (which are
then present), and ReferencedSeriesSequence metadata is set exactly when
element 00081115 is present with a first sequence item containing sub-element
0020000E, and is silently omitted when 00081115 is absent or its first item
lacks that sub-element. -/
theorem c5_create_required_elements (els : Elements) (guids : Nat → String) :
    ((els.lookup ("00080060") = none ∨ els.lookup ("0020000D") = none) →
      ∃ e, create els guids = Except.error e) ∧
    (∀ vs, els.lookup ("00081115") = some vs → vs.head? = none →
      ∃ e, create els guids = Except.error e) ∧
    (∀ grp, create els guids = Except.ok grp →
      (∃ vs, els.lookup ("00080060") = some vs ∧ grp.meta.modality = vs.head?) ∧
      (∃ vs, els.lookup ("0020000D") = some vs ∧
        grp.meta.studyInstanceUID = vs.head?) ∧
      grp.meta.referencedSeriesSequence =
        (match els.lookup ("00081115") with
         | none => none
         | some vs =>
           match vs.head? with
           | some (ElemValue.item fields) =>
             (fields.lookup ("0020000E")).map List.head?
           | _ => none)) := by
  refine ⟨create_error_of_missing els guids,
    fun vs h1 h2 => create_error_of_refseries els guids vs h1 h2, ?_⟩
  intro grp h
  obtain ⟨l, mv, rs, sv, hA, hM, hR, hS, hgrp⟩ := create_ok_inv els guids grp h
  subst hgrp
  refine ⟨?_, ?_, ?_⟩
  · unfold elemFirst at hM
    cases hls : els.lookup ("00080060") with
    | none =>
      rw [hls] at hM
      exact Except.noConfusion hM
    | some vs =>
      rw [hls] at hM
      refine ⟨vs, rfl, ?_⟩
      cases hM
      rfl
  · unfold elemFirst at hS
    cases hls : els.lookup ("0020000D") with
    | none =>
      rw [hls] at hS
      exact Except.noConfusion hS
    | some vs =>
      rw [hls] at hS
      refine ⟨vs, rfl, ?_⟩
      cases hS
      rfl
  · unfold readRefSeries at hR
    cases hls : els.lookup ("00081115") with
    | none =>
      simp only [hls] at hR ⊢
      cases hR
      rfl
    | some vs =>
      simp only [hls] at hR ⊢
      cases hh : vs.head? with
      | none =>
        simp only [hh] at hR
        exact Except.noConfusion hR
      | some ev =>
        simp only [hh] at hR ⊢
        cases ev with
        | item fields =>
          cases hfl : fields.lookup ("0020000E") with
          | none =>
            simp only [hfl, Option.map_none] at hR ⊢
            cases hR
            rfl
          | some sv2 =>
            simp only [hfl, Option.map_some] at hR ⊢
            cases hR
            rfl
        | str s2 =>
          cases hR
          rfl
        | codeVal c2 =>
          cases hR
          rfl
        | srNodes ns =>
          cases hR
          rfl

/-- Witness for C5: the raise branches at concrete inputs and the success
characterization at a complete element mapping. -/
theorem c5_create_required_elements_witness :
    (∃ e, create ([] : Elements) (fun _ => ("g")) = Except.error e) ∧
    (∃ e, create [("00080060", [ElemValue.str ("MR")]),
        ("0020000D", [ElemValue.str ("1.2")]), ("00081115", ([] : List ElemValue))]
        (fun _ => ("g")) = Except.error e) ∧
    ((∃ vs, ([("00080060", [ElemValue.str ("MR")]), ("0020000D", [ElemValue.str ("1.2")]),
        ("00081115", [ElemValue.item [("0020000E", [ElemValue.str ("1.3")])]])] :
        Elements).lookup ("00080060") = some vs ∧
      ({ list := []
         meta := { modality := some (ElemValue.str ("MR"))
                   studyInstanceUID := some (ElemValue.str ("1.2"))
                   referencedSeriesSequence :=
                     some (some (ElemValue.str ("1.3"))) } } : AnnotGroup).meta.modality =
        vs.head?)) := by
  refine ⟨(c5_create_required_elements [] (fun _ => ("g"))).1 (Or.inl rfl),
    (c5_create_required_elements
      [("00080060", [ElemValue.str ("MR")]), ("0020000D", [ElemValue.str ("1.2")]),
       ("00081115", ([] : List ElemValue))] (fun _ => ("g"))).2.1 [] rfl rfl, ?_⟩
  exact ((c5_create_required_elements
    [("00080060", [ElemValue.str ("MR")]), ("0020000D", [ElemValue.str ("1.2")]),
     ("00081115", [ElemValue.item [("0020000E", [ElemValue.str ("1.3")])]])]
    (fun _ => ("g"))).2.2
    { list := []
      meta := { modality := some (ElemValue.str ("MR"))
                studyInstanceUID := some (ElemValue.str ("1.2"))
                referencedSeriesSequence := some (some (ElemValue.str ("1.3"))) } }
    rfl).1

/-- C1: exporting a group with a non-empty annotation list, complete metadata
and a reference SOP UID on every annotation, then re-importing the produced
element mapping, reproduces the group exactly: the annotation list agrees
element-wise (shape, id, textExpr, referenceSopUID, in the same order) and the
metadata agrees; the fixed placeholder SeriesInstanceUID and the regenerated
content date/time live only in file-level tags and do not enter the group. -/
theorem c1_roundtrip (g : AnnotGroup) (now : Nat) (guids : Nat → String)
    (hne : g.list ≠ [])
    (hmod : ∃ mv, g.meta.modality = some mv)
    (hstu : ∃ sv, g.meta.studyInstanceUID = some sv)
    (href : ∃ u, g.meta.referencedSeriesSequence = some u)
    (hsop : ∀ a ∈ g.list, (a.referenceSopUID).isSome = true) :
    create (toDicom g none now).1 guids = Except.ok g := by
  obtain ⟨gl, m⟩ := g
  obtain ⟨mm, ms, mr⟩ := m
  obtain ⟨mv, hmv⟩ := hmod
  obtain ⟨sv, hsv⟩ := hstu
  obtain ⟨u, hu⟩ := href
  replace hmv : mm = some mv := hmv
  replace hsv : ms = some sv := hsv
  replace hu : mr = some u := hu
  subst hmv
  subst hsv
  subst hu
  cases gl with
  | nil => exact absurd rfl hne
  | cons a l =>
    cases u with
    | none =>
      have hann : createAnnots
          (getSRContent (toDicom
            { list := a :: l
              meta := { modality := some mv, studyInstanceUID := some sv,
                        referencedSeriesSequence := some none } } none now).1).contentSequence
          guids 0 = Except.ok (a :: l) :=
        createAnnots_map_mkSRScoord (a :: l) guids 0
      rw [create_cont _ guids (a :: l) hann]
      rfl
    | some w =>
      have hann : createAnnots
          (getSRContent (toDicom
            { list := a :: l
              meta := { modality := some mv, studyInstanceUID := some sv,
                        referencedSeriesSequence := some (some w) } } none now).1).contentSequence
          guids 0 = Except.ok (a :: l) :=
        createAnnots_map_mkSRScoord (a :: l) guids 0
      rw [create_cont _ guids (a :: l) hann]
      rfl

/-- Witness for C1 at a concrete one-annotation group with complete
metadata. -/
theorem c1_roundtrip_witness :
    (([({ id := SRValue.strVal ("id1"), mathShape := MathShape.point 1 2,
          referenceSopUID := some ("sop1"), textExpr := SRValue.strVal ("t1") } :
        Annot)] : List Annot) ≠ []) ∧
    create (toDicom
      { list := [{ id := SRValue.strVal ("id1"), mathShape := MathShape.point 1 2,
                   referenceSopUID := some ("sop1"), textExpr := SRValue.strVal ("t1") }]
        meta := { modality := some (ElemValue.str ("MR"))
                  studyInstanceUID := some (ElemValue.str ("1.2"))
                  referencedSeriesSequence := some (some (ElemValue.str ("1.3"))) } }
      none 5).1 (fun n => ("g") ++ toString n) = Except.ok
      { list := [{ id := SRValue.strVal ("id1"), mathShape := MathShape.point 1 2,
                   referenceSopUID := some ("sop1"), textExpr := SRValue.strVal ("t1") }]
        meta := { modality := some (ElemValue.str ("MR"))
                  studyInstanceUID := some (ElemValue.str ("1.2"))
                  referencedSeriesSequence := some (some (ElemValue.str ("1.3"))) } } := by
  refine ⟨by simp, ?_⟩
  exact c1_roundtrip
    { list := [{ id := SRValue.strVal ("id1"), mathShape := MathShape.point 1 2,
                 referenceSopUID := some ("sop1"), textExpr := SRValue.strVal ("t1") }]
      meta := { modality := some (ElemValue.str ("MR"))
                studyInstanceUID := some (ElemValue.str ("1.2"))
                referencedSeriesSequence := some (some (ElemValue.str ("1.3"))) } }
    5 (fun n => ("g") ++ toString n) (by simp) ⟨ElemValue.str ("MR"), rfl⟩
    ⟨ElemValue.str ("1.2"), rfl⟩ ⟨some (ElemValue.str ("1.3")), rfl⟩
    (by
      intro a ha
      rw [List.mem_singleton] at ha
      subst ha
      rfl)

end Dwv
